import Mathlib

/-!
Verification of the short-url example (`src/examples/shorturl.rs`).

The persistent state is the SQLite table `short_urls (id TEXT PRIMARY KEY,
url TEXT NOT NULL UNIQUE)`; we embed it as a list of rows, in insertion
order.  The two SQL statements executed by `AppState::shorten` and
`AppState::get_url` are embedded as pure functions on that list, and the
random `nanoid!(6)` generator is embedded as a function of its six random
draws, passed explicitly.
-/

namespace ShortUrl

/-- A row of the `short_urls` table (Rust struct `UrlRecord`). -/
structure UrlRecord where
  id : String
  url : String
deriving DecidableEq

/-- The contents of the `short_urls` table, in insertion order. -/
abbrev Store := List UrlRecord

/-- The error causes the database layer can report on the two statements
the program runs: a violated unique constraint (the `id` primary key, since
the `url` uniqueness is absorbed by the `ON CONFLICT(url)` clause), and
`fetch_one` finding no row.  Both are propagated by `?` in the Rust code. -/
inductive DbError where
  | uniqueConstraint
  | rowNotFound
deriving DecidableEq

/-- `const LISTEN_ADDR: &str = "127.0.0.1:8080"`. -/
def LISTEN_ADDR : String := "127.0.0.1:8080"

/-- The default URL-safe alphabet of the `nanoid` crate (`nanoid::alphabet::SAFE`),
64 symbols: `_`, `-`, digits, lowercase and uppercase ASCII letters. -/
def nanoidAlphabet : List Char :=
  "_-0123456789abcdefghijklmnopqrstuvwxyzABCDEFGHIJKLMNOPQRSTUVWXYZ".toList

theorem nanoidAlphabet_length : nanoidAlphabet.length = 64 := by decide

/-- `nanoid!(6)`: six characters drawn from `nanoidAlphabet`; the six random
draws are passed as an explicit function `d : Fin 6 → Fin 64`. -/
def nanoid6 (d : Fin 6 → Fin 64) : String :=
  String.mk ((List.finRange 6).map fun i =>
    nanoidAlphabet.get ⟨(d i).val, lt_of_lt_of_le (d i).isLt
      (le_of_eq nanoidAlphabet_length.symm)⟩)

/-- The statement `INSERT INTO short_urls (id, url) VALUES ($1, $2)
ON CONFLICT(url) DO UPDATE SET url=EXCLUDED.url RETURNING id`, followed by
`fetch_one`.  If a row with this `url` exists, the upsert clause fires: the
`DO UPDATE` rewrites `url` to itself (a storage no-op) and `RETURNING id`
yields the existing row's id.  Otherwise the insert must pass the `id`
primary-key constraint: a duplicate id aborts the statement (nothing is
inserted) and the constraint error is returned; else the row is appended
and the candidate id returned. -/
def sqlInsertOnConflictUrl (s : Store) (c u : String) :
    Except DbError (Store × String) :=
  match s.find? (fun r => r.url == u) with
  | some r => .ok (s, r.id)
  | none =>
    if s.any (fun r => r.id == c) then .error .uniqueConstraint
    else .ok (s ++ [⟨c, u⟩], c)

/-- `AppState::shorten`: generate `nanoid!(6)` and run the upsert.
There is no input validation and no retry in the source. -/
def AppState.shorten (s : Store) (d : Fin 6 → Fin 64) (u : String) :
    Except DbError (Store × String) :=
  sqlInsertOnConflictUrl s (nanoid6 d) u

/-- `AppState::get_url`: `SELECT url FROM short_urls WHERE id = $1` with
`fetch_one`; a read-only statement. -/
def AppState.get_url (s : Store) (id : String) : Except DbError String :=
  match s.find? (fun r => r.id == id) with
  | some r => .ok r.url
  | none => .error .rowNotFound

/-- The status codes the two axum handlers can produce. -/
inductive StatusCode where
  | CREATED
  | UNPROCESSABLE_ENTITY
  | PERMANENT_REDIRECT
  | NOT_FOUND
deriving DecidableEq

/-- The observable part of a handler response: status, the `url` field of the
JSON body (from `ShortenRes`), and the `LOCATION` header value. -/
structure HttpResponse where
  status : StatusCode
  body : Option String
  location : Option String
deriving DecidableEq

/-- The axum handler `shorten`: on success, status `CREATED` with body
`format!("http://{}/{}", LISTEN_ADDR, id)`; any error is mapped to
`UNPROCESSABLE_ENTITY` (and leaves the store as it was). -/
def shorten (s : Store) (d : Fin 6 → Fin 64) (u : String) :
    Store × HttpResponse :=
  match AppState.shorten s d u with
  | .ok (s', id) =>
      (s', ⟨.CREATED, some ("http://" ++ LISTEN_ADDR ++ "/" ++ id), none⟩)
  | .error _ => (s, ⟨.UNPROCESSABLE_ENTITY, none, none⟩)

/-- Validity of one character of an HTTP header value, per the `http`
crate's `HeaderValue::from_str` (invoked by `url.parse()` in the redirect
handler): a byte is accepted iff it is `>= 32` and not DEL (127), or is
horizontal tab (9).  Characters at or above 128 encode to UTF-8 bytes that
are all `>= 128` and hence accepted, so the byte-level check of the crate
coincides with this character-level one. -/
def headerValueCharValid (c : Char) : Bool :=
  (32 ≤ c.toNat && c.toNat != 127) || c.toNat == 9

/-- A string is a valid HTTP header value iff all its characters are. -/
def headerValueValid (u : String) : Bool :=
  u.data.all headerValueCharValid

/-- The axum handler `redirect`: on success, `url.parse().unwrap()` builds
the `LOCATION` header — `none` models the `unwrap` panic when the resolved
url is not a valid header value; otherwise `PERMANENT_REDIRECT` with the
`LOCATION` header set to the resolved url.  Any lookup error is mapped to
`NOT_FOUND`. -/
def redirect (s : Store) (id : String) : Option HttpResponse :=
  match AppState.get_url s id with
  | .ok url =>
      if headerValueValid url then some ⟨.PERMANENT_REDIRECT, none, some url⟩
      else none
  | .error _ => some ⟨.NOT_FOUND, none, none⟩

/-- The table's two uniqueness constraints: `id` is a primary key and
`url` is `UNIQUE`. -/
def WF (s : Store) : Prop :=
  (s.map (·.id)).Nodup ∧ (s.map (·.url)).Nodup

/-- Store states reachable from the empty table (what `try_new` creates on a
fresh database) by `AppState::shorten` calls; `get_url` is read-only. -/
inductive Reachable : Store → Prop where
  | init : Reachable []
  | step {s s' : Store} {d : Fin 6 → Fin 64} {u id : String} :
      Reachable s → AppState.shorten s d u = .ok (s', id) → Reachable s'

/-- Case analysis of a successful upsert: either the url already had a row
(store unchanged, existing id returned), or the candidate was fresh on both
columns and the row was appended. -/
theorem sqlInsert_ok {s s' : Store} {c u id : String}
    (h : sqlInsertOnConflictUrl s c u = .ok (s', id)) :
    (s' = s ∧ ∃ r ∈ s, r.url = u ∧ r.id = id) ∨
    (s' = s ++ [⟨c, u⟩] ∧ id = c ∧ (∀ r ∈ s, r.url ≠ u) ∧
      ∀ r ∈ s, r.id ≠ c) := by
  unfold sqlInsertOnConflictUrl at h
  cases hf : s.find? (fun r => r.url == u) with
  | some r =>
      rw [hf] at h
      simp only [Except.ok.injEq, Prod.mk.injEq] at h
      exact Or.inl ⟨h.1.symm, r, List.mem_of_find?_eq_some hf,
        by simpa using List.find?_some hf, h.2⟩
  | none =>
      rw [hf] at h
      by_cases ha : s.any (fun r => r.id == c)
      · simp [ha] at h
      · simp only [ha, Bool.false_eq_true, if_false, Except.ok.injEq,
          Prod.mk.injEq] at h
        refine Or.inr ⟨h.1.symm, h.2.symm, ?_, ?_⟩
        · intro r hr
          have := List.find?_eq_none.mp hf r hr
          simpa using this
        · intro r hr
          have : ¬ (r.id == c) = true := by
            intro hb
            exact ha (List.any_eq_true.mpr ⟨r, hr, hb⟩)
          simpa using this

/-- The upsert fails exactly when no row holds the url and some row already
holds the candidate id. -/
theorem sqlInsert_error_iff {s : Store} {c u : String} {e : DbError} :
    sqlInsertOnConflictUrl s c u = .error e ↔
    e = .uniqueConstraint ∧ (∀ r ∈ s, r.url ≠ u) ∧ ∃ r ∈ s, r.id = c := by
  unfold sqlInsertOnConflictUrl
  cases hf : s.find? (fun r => r.url == u) with
  | some r =>
      simp only [Except.ok.injEq, reduceCtorEq, false_iff]
      intro ⟨_, hnu, _⟩
      exact hnu r (List.mem_of_find?_eq_some hf)
        (by simpa using List.find?_some hf)
  | none =>
      have hnu : ∀ r ∈ s, r.url ≠ u := by
        intro r hr
        have := List.find?_eq_none.mp hf r hr
        simpa using this
      by_cases ha : s.any (fun r => r.id == c)
      · obtain ⟨r, hr, hb⟩ := List.any_eq_true.mp ha
        simp only [ha, if_true, Except.error.injEq]
        constructor
        · intro he
          exact ⟨he.symm, hnu, r, hr, by simpa using hb⟩
        · intro ⟨he, _, _⟩
          exact he.symm
      · simp only [ha, Bool.false_eq_true, if_false, reduceCtorEq, false_iff]
        intro ⟨_, _, r, hr, hid⟩
        exact ha (List.any_eq_true.mpr ⟨r, hr, by simpa using hid⟩)

/-- A successful upsert only ever appends: every old row survives. -/
theorem sqlInsert_subset {s s' : Store} {c u id : String}
    (h : sqlInsertOnConflictUrl s c u = .ok (s', id)) : s ⊆ s' := by
  rcases sqlInsert_ok h with ⟨rfl, _⟩ | ⟨rfl, _⟩
  · exact fun _ hx => hx
  · exact fun _ hx => List.mem_append_left _ hx

/-- After a successful upsert the returned id and the requested url form a
row of the resulting store. -/
theorem sqlInsert_mem {s s' : Store} {c u id : String}
    (h : sqlInsertOnConflictUrl s c u = .ok (s', id)) :
    (⟨id, u⟩ : UrlRecord) ∈ s' := by
  rcases sqlInsert_ok h with ⟨rfl, r, hr, hu, hi⟩ | ⟨rfl, rfl, _, _⟩
  · obtain ⟨rid, rurl⟩ := r
    cases hu; cases hi; exact hr
  · exact List.mem_append_right _ (List.mem_singleton.mpr rfl)

/-- The upsert preserves the two uniqueness constraints. -/
theorem sqlInsert_WF {s s' : Store} {c u id : String} (hwf : WF s)
    (h : sqlInsertOnConflictUrl s c u = .ok (s', id)) : WF s' := by
  rcases sqlInsert_ok h with ⟨rfl, _⟩ | ⟨rfl, _, hnu, hni⟩
  · exact hwf
  · constructor
    · rw [List.map_append, List.nodup_append]
      refine ⟨hwf.1, List.nodup_singleton _, ?_⟩
      intro x hx hx'
      obtain ⟨r, hr, rfl⟩ := List.mem_map.mp hx
      simp only [List.map_cons, List.map_nil, List.mem_singleton] at hx'
      exact hni r hr hx'
    · rw [List.map_append, List.nodup_append]
      refine ⟨hwf.2, List.nodup_singleton _, ?_⟩
      intro x hx hx'
      obtain ⟨r, hr, rfl⟩ := List.mem_map.mp hx
      simp only [List.map_cons, List.map_nil, List.mem_singleton] at hx'
      exact hnu r hr hx'

/-- In a store whose ids are unique, looking up the id of a present row
returns that row's url. -/
theorem get_url_ok_of_mem {s : Store} {id u : String}
    (hids : (s.map (·.id)).Nodup) (hmem : (⟨id, u⟩ : UrlRecord) ∈ s) :
    AppState.get_url s id = .ok u := by
  unfold AppState.get_url
  cases hf : s.find? (fun r => r.id == id) with
  | none =>
      exact absurd (List.find?_eq_none.mp hf _ hmem) (by simp)
  | some r =>
      have hrmem : r ∈ s := List.mem_of_find?_eq_some hf
      have hrid : r.id = id := by simpa using List.find?_some hf
      have : r = ⟨id, u⟩ :=
        List.inj_on_of_nodup_map hids hrmem hmem (by simpa using hrid)
      rw [this]

/-- Reachable stores satisfy the table constraints. -/
theorem Reachable.wf {s : Store} (h : Reachable s) : WF s := by
  induction h with
  | init => exact ⟨List.nodup_nil, List.nodup_nil⟩
  | step _ hstep ih => exact sqlInsert_WF ih hstep

/-- With unique urls, searching for the url of a present row finds exactly
that row. -/
theorem find_url_eq {s : Store} (hurls : (s.map (·.url)).Nodup)
    {id u : String} (hmem : (⟨id, u⟩ : UrlRecord) ∈ s) :
    s.find? (fun x => x.url == u) = some ⟨id, u⟩ := by
  cases hf : s.find? (fun x => x.url == u) with
  | none =>
      exact absurd (List.find?_eq_none.mp hf _ hmem) (by simp)
  | some r =>
      have hrmem : r ∈ s := List.mem_of_find?_eq_some hf
      have hru : r.url = u := by simpa using List.find?_some hf
      have : r = ⟨id, u⟩ :=
        List.inj_on_of_nodup_map hurls hrmem hmem (by simpa using hru)
      rw [this]

/-- With unique urls, a present row's url occurs in exactly one row. -/
theorem countP_url_eq_one {s : Store} (hurls : (s.map (·.url)).Nodup)
    {id u : String} (hmem : (⟨id, u⟩ : UrlRecord) ∈ s) :
    s.countP (fun r => r.url == u) = 1 := by
  have hcnt : s.countP (fun r => r.url == u) = (s.map (·.url)).count u := by
    rw [List.count, List.countP_map]
    rfl
  have hle : (s.map (·.url)).count u ≤ 1 :=
    List.nodup_iff_count_le_one.mp hurls u
  have hmemu : u ∈ s.map (·.url) := List.mem_map.mpr ⟨⟨id, u⟩, hmem, rfl⟩
  have hge : 1 ≤ (s.map (·.url)).count u := List.count_pos_iff.mpr hmemu
  omega

/-- C1: Idempotent creation — after a successful `shorten(u)` on a store that
respects the table constraints, calling `shorten(u)` again (with any fresh
random draws) returns the same short id with the store unchanged, and the
store holds exactly one row whose url is `u`. -/
theorem shorten_idempotent (s s₁ : Store) (d₁ d₂ : Fin 6 → Fin 64)
    (u id₁ : String) (hwf : WF s)
    (h₁ : AppState.shorten s d₁ u = .ok (s₁, id₁)) :
    AppState.shorten s₁ d₂ u = .ok (s₁, id₁) ∧
    s₁.countP (fun r => r.url == u) = 1 := by
  have hwf₁ : WF s₁ := sqlInsert_WF hwf h₁
  have hmem : (⟨id₁, u⟩ : UrlRecord) ∈ s₁ := sqlInsert_mem h₁
  constructor
  · show sqlInsertOnConflictUrl s₁ (nanoid6 d₂) u = .ok (s₁, id₁)
    unfold sqlInsertOnConflictUrl
    rw [find_url_eq hwf₁.2 hmem]
  · exact countP_url_eq_one hwf₁.2 hmem

/-- Witness for C1 at a concrete input: one shorten on the empty store, then
a second shorten of the same url with different random draws. -/
theorem shorten_idempotent_witness :
    AppState.shorten ([⟨"______", "https://example.com/a"⟩] : Store)
        (fun _ => (1 : Fin 64)) "https://example.com/a"
      = .ok (([⟨"______", "https://example.com/a"⟩] : Store), "______") ∧
    List.countP (fun r => r.url == "https://example.com/a")
        ([⟨"______", "https://example.com/a"⟩] : Store) = 1 :=
  shorten_idempotent [] [⟨"______", "https://example.com/a"⟩]
    (fun _ => (0 : Fin 64)) (fun _ => (1 : Fin 64)) "https://example.com/a"
    "______" ⟨List.nodup_nil, List.nodup_nil⟩ (by rfl)

/-- C2: Round-trip — if `shorten(u)` succeeds with id `s`, then resolving `s`
returns exactly `u`. -/
theorem resolve_shorten_roundtrip (s s₁ : Store) (d : Fin 6 → Fin 64)
    (u id : String) (hwf : WF s)
    (h : AppState.shorten s d u = .ok (s₁, id)) :
    AppState.get_url s₁ id = .ok u :=
  get_url_ok_of_mem (sqlInsert_WF hwf h).1 (sqlInsert_mem h)

/-- Witness for C2 at a concrete input. -/
theorem resolve_shorten_roundtrip_witness :
    AppState.get_url ([⟨"______", "https://example.com/a"⟩] : Store) "______"
      = .ok "https://example.com/a" :=
  resolve_shorten_roundtrip [] [⟨"______", "https://example.com/a"⟩]
    (fun _ => (0 : Fin 64)) "https://example.com/a" "______"
    ⟨List.nodup_nil, List.nodup_nil⟩ (by rfl)

/-- Counterexample to C3: a single colliding candidate already makes
`shorten` fail — the code does not regenerate a candidate, does not retry,
and the failure is the storage unique-constraint error, not a dedicated
id-space-exhausted error.  Here the store holds id `"______"` for one url,
the six draws all yield symbol 0 so the candidate is again `"______"`, and
the very first (and only) attempt errors. -/
theorem shorten_no_retry_counterexample :
    AppState.shorten ([⟨"______", "https://a.example/x"⟩] : Store)
      (fun _ => (0 : Fin 64)) "https://b.example/y"
      = .error .uniqueConstraint := by rfl

/-- C3 (amended): when the url is not yet stored and the generated candidate
id already belongs to an existing row, `shorten` fails immediately on its
single attempt with the unique-constraint error. -/
theorem shorten_single_attempt (s : Store) (d : Fin 6 → Fin 64) (u : String)
    (hnu : ∀ r ∈ s, r.url ≠ u) (hc : ∃ r ∈ s, r.id = nanoid6 d) :
    AppState.shorten s d u = .error .uniqueConstraint :=
  sqlInsert_error_iff.mpr ⟨rfl, hnu, hc⟩

/-- Witness for the amended C3 at a concrete input. -/
theorem shorten_single_attempt_witness :
    AppState.shorten ([⟨"______", "https://a.example/x"⟩] : Store)
      (fun _ => (0 : Fin 64)) "https://c.example/z"
      = .error .uniqueConstraint :=
  shorten_single_attempt [⟨"______", "https://a.example/x"⟩]
    (fun _ => (0 : Fin 64)) "https://c.example/z" (by decide)
    ⟨⟨"______", "https://a.example/x"⟩, by decide, by rfl⟩

/-- Counterexample to C4: `shorten("")` and `shorten("not a url")` both
succeed and insert a row — there is no input validation and no invalid-input
error in the code. -/
theorem shorten_accepts_invalid_counterexample :
    AppState.shorten ([] : Store) (fun _ => (0 : Fin 64)) ""
      = .ok (([⟨"______", ""⟩] : Store), "______") ∧
    AppState.shorten ([] : Store) (fun _ => (0 : Fin 64)) "not a url"
      = .ok (([⟨"______", "not a url"⟩] : Store), "______") :=
  ⟨rfl, rfl⟩

/-- C4 (amended): `shorten` performs no validation of its input: every
string `u` — empty, malformed or well-formed alike — is accepted, and on
any store with no conflicting row (no row for `u`, no row holding the
candidate id) it appends a row for `u` and returns the candidate id. -/
theorem shorten_no_validation (s : Store) (d : Fin 6 → Fin 64) (u : String)
    (hnu : ∀ r ∈ s, r.url ≠ u) (hni : ∀ r ∈ s, r.id ≠ nanoid6 d) :
    AppState.shorten s d u = .ok (s ++ [⟨nanoid6 d, u⟩], nanoid6 d) := by
  show sqlInsertOnConflictUrl s (nanoid6 d) u = _
  have hf : s.find? (fun r => r.url == u) = none :=
    List.find?_eq_none.mpr (fun r hr => by simpa using hnu r hr)
  have ha : s.any (fun r => r.id == nanoid6 d) = false := by
    rw [List.any_eq_false]
    intro r hr
    simpa using hni r hr
  unfold sqlInsertOnConflictUrl
  rw [hf, ha]
  simp

/-- Witness for the amended C4: the empty string is shortened into a
non-empty store that holds no conflicting row. -/
theorem shorten_no_validation_witness :
    AppState.shorten ([⟨"______", "https://a.example/x"⟩] : Store)
      (fun _ => (1 : Fin 64)) ""
      = .ok (([⟨"______", "https://a.example/x"⟩, ⟨"------", ""⟩] : Store),
             "------") :=
  shorten_no_validation [⟨"______", "https://a.example/x"⟩]
    (fun _ => (1 : Fin 64)) "" (by decide) (by decide)

/-- Counterexample to C10: the candidate id `"______"` already belongs to a
row whose url differs from the input, so the claim's antecedent holds, yet
the operation does not return an error — the input url is already mapped,
the `ON CONFLICT(url)` target takes priority, and `shorten` succeeds with
the existing id. -/
theorem shorten_collision_success_counterexample :
    AppState.shorten ([⟨"______", "https://a.example/x"⟩,
                       ⟨"------", "https://b.example/y"⟩] : Store)
      (fun _ => (0 : Fin 64)) "https://b.example/y"
      = .ok (([⟨"______", "https://a.example/x"⟩,
               ⟨"------", "https://b.example/y"⟩] : Store), "------") := rfl

/-- C10 (amended): if the url has no row yet and the generated candidate
collides with an existing row's id, the operation returns an error and the
handler leaves the store exactly as it was: no row inserted, none
modified. -/
theorem shorten_collision_atomic (s : Store) (d : Fin 6 → Fin 64)
    (u : String) (hnu : ∀ r ∈ s, r.url ≠ u)
    (hc : ∃ r ∈ s, r.id = nanoid6 d) :
    AppState.shorten s d u = .error .uniqueConstraint ∧
    shorten s d u = (s, ⟨.UNPROCESSABLE_ENTITY, none, none⟩) := by
  have he : AppState.shorten s d u = .error .uniqueConstraint :=
    sqlInsert_error_iff.mpr ⟨rfl, hnu, hc⟩
  refine ⟨he, ?_⟩
  unfold shorten
  rw [he]

/-- Witness for C10 at a concrete input. -/
theorem shorten_collision_atomic_witness :
    AppState.shorten ([⟨"______", "https://a.example/x"⟩] : Store)
      (fun _ => (0 : Fin 64)) "https://d.example/w"
      = .error .uniqueConstraint ∧
    shorten ([⟨"______", "https://a.example/x"⟩] : Store)
      (fun _ => (0 : Fin 64)) "https://d.example/w"
      = (([⟨"______", "https://a.example/x"⟩] : Store),
         ⟨.UNPROCESSABLE_ENTITY, none, none⟩) :=
  shorten_collision_atomic [⟨"______", "https://a.example/x"⟩]
    (fun _ => (0 : Fin 64)) "https://d.example/w" (by decide)
    ⟨⟨"______", "https://a.example/x"⟩, by decide, by rfl⟩

/-- C5: Bijection invariant — every reachable store satisfies both
uniqueness constraints, every successful `shorten` preserves them, and two
successful shortens of distinct urls return distinct ids. -/
theorem store_bijection (s s₁ s₂ : Store) (d₁ d₂ : Fin 6 → Fin 64)
    (u₁ u₂ id₁ id₂ : String) (hs : Reachable s)
    (h₁ : AppState.shorten s d₁ u₁ = .ok (s₁, id₁))
    (h₂ : AppState.shorten s₁ d₂ u₂ = .ok (s₂, id₂))
    (hne : u₁ ≠ u₂) :
    WF s ∧ WF s₁ ∧ WF s₂ ∧ id₁ ≠ id₂ := by
  have hwf : WF s := hs.wf
  have hwf₁ : WF s₁ := sqlInsert_WF hwf h₁
  have hwf₂ : WF s₂ := sqlInsert_WF hwf₁ h₂
  refine ⟨hwf, hwf₁, hwf₂, ?_⟩
  intro heq
  have hm₁ : (⟨id₁, u₁⟩ : UrlRecord) ∈ s₂ :=
    sqlInsert_subset h₂ (sqlInsert_mem h₁)
  have hm₂ : (⟨id₂, u₂⟩ : UrlRecord) ∈ s₂ := sqlInsert_mem h₂
  have : (⟨id₁, u₁⟩ : UrlRecord) = ⟨id₂, u₂⟩ :=
    List.inj_on_of_nodup_map hwf₂.1 hm₁ hm₂ (by simpa using heq)
  exact hne (congrArg UrlRecord.url this)

/-- Witness for C5 at a concrete input: two shortens of distinct urls from
the empty store. -/
theorem store_bijection_witness :
    WF ([] : Store) ∧
    WF ([⟨"______", "https://example.com/a"⟩] : Store) ∧
    WF ([⟨"______", "https://example.com/a"⟩,
         ⟨"------", "https://example.com/b"⟩] : Store) ∧
    "______" ≠ "------" :=
  store_bijection [] [⟨"______", "https://example.com/a"⟩]
    [⟨"______", "https://example.com/a"⟩, ⟨"------", "https://example.com/b"⟩]
    (fun _ => (0 : Fin 64)) (fun _ => (1 : Fin 64))
    "https://example.com/a" "https://example.com/b" "______" "------"
    Reachable.init (by rfl) (by rfl) (by decide)

/-- C6: Unknown id — when no row carries the requested id, `get_url` fails
with the row-not-found error (which `redirect` maps to a not-found status);
the lookup is a read-only select, so the store is untouched by construction. -/
theorem get_url_unknown_id (s : Store) (id : String)
    (h : ∀ r ∈ s, r.id ≠ id) :
    AppState.get_url s id = .error .rowNotFound ∧
    redirect s id = some ⟨.NOT_FOUND, none, none⟩ := by
  have hf : s.find? (fun r => r.id == id) = none :=
    List.find?_eq_none.mpr (fun r hr => by simpa using h r hr)
  have hg : AppState.get_url s id = .error .rowNotFound := by
    unfold AppState.get_url
    rw [hf]
  refine ⟨hg, ?_⟩
  unfold redirect
  rw [hg]

/-- Witness for C6 at the spec's own example id. -/
theorem get_url_unknown_id_witness :
    AppState.get_url ([⟨"______", "https://example.com/a"⟩] : Store)
      "doesnotexist" = .error .rowNotFound ∧
    redirect ([⟨"______", "https://example.com/a"⟩] : Store) "doesnotexist"
      = some ⟨.NOT_FOUND, none, none⟩ :=
  get_url_unknown_id [⟨"______", "https://example.com/a"⟩] "doesnotexist"
    (by decide)

/-- Counterexample to C7: an id-space collision is not recovered internally —
`AppState::shorten` surfaces the unique-constraint (conflict) error, and the
transport maps it to the same unprocessable status used for every other
shorten failure, conflating the kinds. -/
theorem conflict_surfaced_counterexample :
    AppState.shorten ([⟨"______", "https://a.example/x"⟩] : Store)
      (fun _ => (0 : Fin 64)) "https://e.example/v"
      = .error .uniqueConstraint ∧
    shorten ([⟨"______", "https://a.example/x"⟩] : Store)
      (fun _ => (0 : Fin 64)) "https://e.example/v"
      = (([⟨"______", "https://a.example/x"⟩] : Store),
         ⟨.UNPROCESSABLE_ENTITY, none, none⟩) :=
  ⟨rfl, rfl⟩

/-- C7 (amended): the service layer recovers no error kind at all; the
`AppState` methods propagate database errors unchanged, and the transport
layer collapses them — every failed shorten becomes the unprocessable
status and every failed resolve becomes the not-found status, whatever the
underlying error kind was. -/
theorem error_propagation_conflated (s : Store) (d : Fin 6 → Fin 64)
    (u rid : String) (e e' : DbError)
    (h₁ : AppState.shorten s d u = .error e)
    (h₂ : AppState.get_url s rid = .error e') :
    shorten s d u = (s, ⟨.UNPROCESSABLE_ENTITY, none, none⟩) ∧
    redirect s rid = some ⟨.NOT_FOUND, none, none⟩ := by
  constructor
  · unfold shorten
    rw [h₁]
  · unfold redirect
    rw [h₂]

/-- Witness for the amended C7 at a concrete input. -/
theorem error_propagation_conflated_witness :
    shorten ([⟨"______", "https://a.example/x"⟩] : Store)
      (fun _ => (0 : Fin 64)) "https://f.example/u"
      = (([⟨"______", "https://a.example/x"⟩] : Store),
         ⟨.UNPROCESSABLE_ENTITY, none, none⟩) ∧
    redirect ([⟨"______", "https://a.example/x"⟩] : Store) "missing"
      = some ⟨.NOT_FOUND, none, none⟩ :=
  error_propagation_conflated [⟨"______", "https://a.example/x"⟩]
    (fun _ => (0 : Fin 64)) "https://f.example/u" "missing"
    .uniqueConstraint .rowNotFound (by rfl) (by rfl)

/-- Every output of the generator is six characters long, all drawn from the
64-symbol alphabet. -/
theorem nanoid6_spec (d : Fin 6 → Fin 64) :
    (nanoid6 d).length = 6 ∧ ∀ ch ∈ (nanoid6 d).data, ch ∈ nanoidAlphabet := by
  constructor
  · show (String.mk _).length = 6
    simp [String.length, nanoid6]
  · intro ch hch
    simp only [nanoid6, List.mem_map] at hch
    obtain ⟨i, _, rfl⟩ := hch
    exact List.get_mem _ _ _

/-- Every id stored in a reachable store was produced by the generator. -/
theorem reachable_ids {s : Store} (hs : Reachable s) :
    ∀ r ∈ s, ∃ d : Fin 6 → Fin 64, r.id = nanoid6 d := by
  induction hs with
  | init => simp
  | step _ hstep ih =>
      rcases sqlInsert_ok hstep with ⟨rfl, _⟩ | ⟨rfl, _, _, _⟩
      · exact ih
      · intro r hr
        rcases List.mem_append.mp hr with hold | hnew
        · exact ih r hold
        · rw [List.mem_singleton.mp hnew]
          exact ⟨_, rfl⟩

/-- C8: Identifier format — every candidate produced by the generator is a
string of exactly 6 characters from the 64-symbol URL-safe alphabet, and
hence so is the id of every row of every reachable store. -/
theorem short_id_format (d : Fin 6 → Fin 64) (s : Store) (hs : Reachable s) :
    (nanoid6 d).length = 6 ∧
    (∀ ch ∈ (nanoid6 d).data, ch ∈ nanoidAlphabet) ∧
    ∀ r ∈ s, r.id.length = 6 ∧ ∀ ch ∈ r.id.data, ch ∈ nanoidAlphabet := by
  obtain ⟨hlen, hmem⟩ := nanoid6_spec d
  refine ⟨hlen, hmem, ?_⟩
  intro r hr
  obtain ⟨d', hd'⟩ := reachable_ids hs r hr
  rw [hd']
  exact nanoid6_spec d'

/-- Witness for C8 at a concrete input: the all-zero draws and a one-row
reachable store. -/
theorem short_id_format_witness :
    (nanoid6 (fun _ => (0 : Fin 64))).length = 6 ∧
    (∀ ch ∈ (nanoid6 (fun _ => (0 : Fin 64))).data, ch ∈ nanoidAlphabet) ∧
    ∀ r ∈ ([⟨"______", "https://example.com/a"⟩] : Store),
      r.id.length = 6 ∧ ∀ ch ∈ r.id.data, ch ∈ nanoidAlphabet :=
  short_id_format (fun _ => (0 : Fin 64))
    [⟨"______", "https://example.com/a"⟩]
    (Reachable.step Reachable.init
      (show AppState.shorten [] (fun _ => (0 : Fin 64)) "https://example.com/a"
          = .ok ([⟨"______", "https://example.com/a"⟩], "______") from rfl))

/-- Counterexample to C9: a url containing a control character is storable
(`shorten` validates nothing) and resolvable, but it is not a valid HTTP
header value, so `url.parse().unwrap()` in the redirect handler panics —
no permanent-redirect response is produced for this resolvable id. -/
theorem redirect_panic_counterexample :
    AppState.shorten ([] : Store) (fun _ => (0 : Fin 64)) "bad\nurl"
      = .ok (([⟨"______", "bad\nurl"⟩] : Store), "______") ∧
    AppState.get_url ([⟨"______", "bad\nurl"⟩] : Store) "______"
      = .ok "bad\nurl" ∧
    redirect ([⟨"______", "bad\nurl"⟩] : Store) "______" = none :=
  ⟨rfl, rfl, rfl⟩

/-- C9 (amended): HTTP surface — a successful POST returns the created
status with body `http://<host:port>/<id>` for the stored id; a GET whose
id resolves to a url that is a valid HTTP header value returns a permanent
redirect whose location header is the resolved url (when the resolved url
is not a valid header value the handler panics instead of responding). -/
theorem http_surface (s s' : Store) (d : Fin 6 → Fin 64)
    (u id rid rurl : String)
    (h₁ : AppState.shorten s d u = .ok (s', id))
    (h₂ : AppState.get_url s rid = .ok rurl)
    (hv : headerValueValid rurl = true) :
    shorten s d u
      = (s', ⟨.CREATED, some ("http://" ++ LISTEN_ADDR ++ "/" ++ id), none⟩) ∧
    redirect s rid = some ⟨.PERMANENT_REDIRECT, none, some rurl⟩ := by
  constructor
  · unfold shorten
    rw [h₁]
  · unfold redirect
    rw [h₂]
    simp [hv]

/-- Witness for the amended C9 at a concrete input. -/
theorem http_surface_witness :
    shorten ([⟨"______", "https://example.com/a"⟩] : Store)
      (fun _ => (1 : Fin 64)) "https://example.com/b"
      = (([⟨"______", "https://example.com/a"⟩,
           ⟨"------", "https://example.com/b"⟩] : Store),
         ⟨.CREATED, some "http://127.0.0.1:8080/------", none⟩) ∧
    redirect ([⟨"______", "https://example.com/a"⟩] : Store) "______"
      = some ⟨.PERMANENT_REDIRECT, none, some "https://example.com/a"⟩ :=
  http_surface [⟨"______", "https://example.com/a"⟩]
    [⟨"______", "https://example.com/a"⟩, ⟨"------", "https://example.com/b"⟩]
    (fun _ => (1 : Fin 64)) "https://example.com/b" "------" "______"
    "https://example.com/a" (by rfl) (by rfl) (by decide)

end ShortUrl
